import Mathlib

/-!
Verification development for the MoodMorphAPI repository: three single-file
Flask services (`src/app.py`, `src/app1.py`, `src/main.py`) that forward a
user message to an external text-generation endpoint and post-process the
reply.

Shallow embedding conventions:
* JSON values are the inductive `Json` below; request bodies and provider
  reply bodies are `Json` (the model assumes bodies that reached the
  handler parsed as JSON, which is how Flask's `get_json` / `request.json`
  and `response.json()` hand them to the code on the paths the claims
  discuss).
* Python subscripting (`d['k']`, `l[0]`), `dict.get`, the `in` operator,
  `.strip()`, `.lower()` are embedded as `Except PyErr _` functions with
  the exception kind Python would raise (`KeyError`, `IndexError`,
  `TypeError`, `AttributeError`).
* The outcome of the single outbound `requests.post` call is a parameter
  of each handler: either a connection-level failure
  (`requests.exceptions.RequestException` that is not an `HTTPError`) or a
  reply with an HTTP status and a JSON body.  `response.raise_for_status()`
  raises `HTTPError` exactly for statuses in `[400, 600)`.
* Each route handler returns a `HandlerResult` (status, body, how many
  outbound calls were made, and whether an exception escaped the handler,
  i.e. Flask had to produce its generic 500 page) together with the
  module-level configuration after the request, threaded explicitly.
* The texts of Python `str(e)` messages for caught exceptions are opaque
  stand-ins (`errMsg`, `netErrMsg`); no claim depends on their content.
-/

namespace MoodMorph

/-- JSON values, as delivered to the Python code by Flask / requests. -/
inductive Json where
  | null : Json
  | bool (b : Bool) : Json
  | num (n : Int) : Json
  | str (s : String) : Json
  | arr (elems : List Json) : Json
  | obj (fields : List (String × Json)) : Json

/-- The Python exception kinds the embedded operations can raise. -/
inductive PyErr where
  | keyError
  | indexError
  | typeError
  | attributeError
deriving DecidableEq, Repr

/-- Stand-in for Python `str(e)` on a caught exception. -/
def errMsg : PyErr → String
  | .keyError => "KeyError"
  | .indexError => "IndexError"
  | .typeError => "TypeError"
  | .attributeError => "AttributeError"

/-- Stand-in for Python `str(e)` on a caught connection-level
`requests.exceptions.RequestException`. -/
def netErrMsg : String := "ConnectionError"

/-- First-match association lookup, as in a Python dict built from JSON. -/
def lookupField : List (String × Json) → String → Option Json
  | [], _ => none
  | (k, v) :: rest, key => if k = key then some v else lookupField rest key

/-- Python truthiness (`if not x`) of a JSON value. -/
def pyFalsy : Json → Bool
  | .null => true
  | .bool b => !b
  | .num n => n == 0
  | .str s => s == ""
  | .arr xs => xs.isEmpty
  | .obj fs => fs.isEmpty

/-- The whitespace characters Python's `str.strip()` removes (the ASCII
ones; every string the services handle in the claims is ASCII). -/
def isPySpace (c : Char) : Bool :=
  c == ' ' || c == '\t' || c == '\n' || c == '\r' || c == '\x0b' || c == '\x0c'

/-- Drop leading characters satisfying `p`. -/
def dropLeading (p : Char → Bool) : List Char → List Char
  | [] => []
  | c :: cs => if p c then dropLeading p cs else c :: cs

/-- Python `s.strip()`: remove leading and trailing whitespace. -/
def pyStripStr (s : String) : String :=
  String.mk ((dropLeading isPySpace ((dropLeading isPySpace s.data).reverse)).reverse)

/-- ASCII lower-casing of one character, as Python `str.lower()` does on
the ASCII range. -/
def pyLowerChar (c : Char) : Char :=
  if 'A' ≤ c && c ≤ 'Z' then Char.ofNat (c.toNat + 32) else c

/-- Python `s.lower()`. -/
def pyLowerStr (s : String) : String :=
  String.mk (s.data.map pyLowerChar)

/-- Whether `pat` occurs as a substring of `s` (Python `pat in s`). -/
def strContainsSub (s pat : String) : Bool :=
  let sl := s.toList
  let pl := pat.toList
  (List.range (sl.length + 1)).any fun i => ((sl.drop i).take pl.length) == pl

/-- Python list membership test of a string key: `'k' in l`.  String
equality against any non-string element is `False` in Python, so only
string elements can match. -/
def listHasStr (k : String) : List Json → Bool
  | [] => false
  | .str s :: rest => s == k || listHasStr k rest
  | _ :: rest => listHasStr k rest

/-- Python `'k' in j`: key test on dicts, membership on lists, substring
on strings, `TypeError` otherwise. -/
def pyContains (j : Json) (k : String) : Except PyErr Bool :=
  match j with
  | .obj fs => .ok (lookupField fs k).isSome
  | .arr xs => .ok (listHasStr k xs)
  | .str s => .ok (strContainsSub s k)
  | _ => .error .typeError

/-- Python `j['k']`: dict lookup (`KeyError` when absent); `TypeError` on
lists, strings and scalars. -/
def getItemStr (j : Json) (k : String) : Except PyErr Json :=
  match j with
  | .obj fs =>
    match lookupField fs k with
    | some v => .ok v
    | none => .error .keyError
  | _ => .error .typeError

/-- Python `j[i]` for a natural index: list indexing (`IndexError` when
out of range), string indexing (yields a one-character string), `KeyError`
on dicts (an integer key is never present in a JSON object), `TypeError`
on scalars. -/
def getItemIdx (j : Json) (i : Nat) : Except PyErr Json :=
  match j with
  | .arr xs =>
    match xs.get? i with
    | some v => .ok v
    | none => .error .indexError
  | .str s =>
    match s.toList.get? i with
    | some c => .ok (.str (String.mk [c]))
    | none => .error .indexError
  | .obj _ => .error .keyError
  | _ => .error .typeError

/-- Python `j.get(k, dflt)`: total on dicts, `AttributeError` on anything
else. -/
def pyGet (j : Json) (k : String) (dflt : Json) : Except PyErr Json :=
  match j with
  | .obj fs => .ok ((lookupField fs k).getD dflt)
  | _ => .error .attributeError

/-- Python `j.strip()`: `AttributeError` unless `j` is a string. -/
def pyStrip (j : Json) : Except PyErr String :=
  match j with
  | .str s => .ok (pyStripStr s)
  | _ => .error .attributeError

/-- Python `j.strip().lower()`. -/
def pyStripLower (j : Json) : Except PyErr String :=
  match j with
  | .str s => .ok (pyLowerStr (pyStripStr s))
  | _ => .error .attributeError

/-- Python `j.lower()`: `AttributeError` unless `j` is a string. -/
def pyLower (j : Json) : Except PyErr String :=
  match j with
  | .str s => .ok (pyLowerStr s)
  | _ => .error .attributeError

/-- The module-level configuration read from the process environment:
`GEMINI_API_KEY = os.getenv("GEMINI_API_KEY")` (`none` when the variable
is unset).  The endpoint URL and the system-prompt strings are string
constants derived from it and are never reassigned. -/
structure Config where
  apiKey : Option String
deriving DecidableEq, Repr

/-- Python `if not GEMINI_API_KEY`: the key counts as present when it is
set and non-empty. -/
def Config.keyPresent (c : Config) : Bool :=
  match c.apiKey with
  | none => false
  | some s => !(s == "")

/-- Outcome of the single outbound `requests.post` call. -/
inductive ProviderOutcome where
  | netError : ProviderOutcome
  | reply (status : Nat) (body : Json) : ProviderOutcome

/-- The JSON body a handler responds with (every response body produced by
the three services has one of these shapes). -/
inductive Body where
  | sentiment (label : String)
  | chatResponse (text : String)
  | err (msg : String)
  | errSentiment (msg label : String)
  | unhandled (e : PyErr)
deriving DecidableEq, Repr

/-- What one request produced: HTTP status, response body, number of
outbound provider calls made while handling it, and whether an exception
escaped the handler (Flask then serves its generic 500 error page; the
`body` field records the escaped exception kind). -/
structure HandlerResult where
  status : Nat
  body : Body
  providerCalls : Nat
  crashed : Bool
deriving DecidableEq, Repr

/-- An exception of kind `e` escaped the route handler. -/
def crash (e : PyErr) (calls : Nat) : HandlerResult :=
  ⟨500, Body.unhandled e, calls, true⟩

/-- `response.raise_for_status()` raises `HTTPError` exactly for
4xx/5xx statuses. -/
def raisesForStatus (status : Nat) : Bool :=
  400 ≤ status && status < 600

/-- Extraction used by app.py / app1.py:
`response_data['candidates'][0]['content']['parts'][0]['text']`. -/
def geminiChain (j : Json) : Except PyErr Json := do
  let c ← getItemStr j "candidates"
  let c0 ← getItemIdx c 0
  let content ← getItemStr c0 "content"
  let parts ← getItemStr content "parts"
  let p0 ← getItemIdx parts 0
  getItemStr p0 "text"

/-- app.py / app1.py sentiment extraction: the chain above followed by
`.strip().lower()`. -/
def geminiSentimentText (j : Json) : Except PyErr String := do
  let t ← geminiChain j
  pyStripLower t

/-- app1.py chat extraction: the chain above followed by `.strip()`. -/
def geminiChatText (j : Json) : Except PyErr String := do
  let t ← geminiChain j
  pyStrip t

/-- A provider reply body of the Gemini shape
`{"candidates":[{"content":{"parts":[{"text": t}]}}]}`. -/
def mkGeminiReply (t : Json) : Json :=
  .obj [("candidates", .arr [.obj [("content",
    .obj [("parts", .arr [.obj [("text", t)]])])]])]

/-- `src/app.py`, route `POST /api/sentiment` (`get_sentiment_route`).
Returns the handler result together with the module configuration after
the request (the handler only reads the globals, so each return threads
the configuration through unchanged). -/
def appSentimentRoute (cfg : Config) (reqBody : Json) (out : ProviderOutcome) :
    HandlerResult × Config :=
  if !cfg.keyPresent then
    -- mock path: request.get_json().get('message', '').lower(),
    -- then keyword check for "good" / "great"
    match pyGet reqBody "message" (Json.str "") with
    | .error e => (crash e 0, cfg)
    | .ok v =>
      match pyLower v with
      | .error e => (crash e 0, cfg)
      | .ok m =>
        let sentiment :=
          if strContainsSub m "good" || strContainsSub m "great" then "happy"
          else "sad"
        (⟨200, Body.sentiment sentiment, 0, false⟩, cfg)
  else
    -- if not data or 'message' not in data: 400
    if pyFalsy reqBody then
      (⟨400, Body.err "Message is required in the request body", 0, false⟩, cfg)
    else
      match pyContains reqBody "message" with
      | .error e => (crash e 0, cfg)
      | .ok false =>
        (⟨400, Body.err "Message is required in the request body", 0, false⟩, cfg)
      | .ok true =>
        -- user_message = data['message']  (outside the try block)
        match getItemStr reqBody "message" with
        | .error e => (crash e 0, cfg)
        | .ok _userMessage =>
          -- try: requests.post(...); raise_for_status; parse; extract
          match out with
          | .netError =>
            (⟨500, Body.err "Failed to connect to the sentiment analysis service",
              1, false⟩, cfg)
          | .reply status j =>
            if raisesForStatus status then
              (⟨status,
                Body.err ("API request failed with status " ++ toString status),
                1, false⟩, cfg)
            else
              match geminiSentimentText j with
              | .ok s => (⟨200, Body.sentiment s, 1, false⟩, cfg)
              | .error .keyError =>
                (⟨500, Body.err "Invalid response structure from sentiment service",
                  1, false⟩, cfg)
              | .error .indexError =>
                (⟨500, Body.err "Invalid response structure from sentiment service",
                  1, false⟩, cfg)
              | .error e => (crash e 1, cfg)

/-- `src/app1.py`, route `POST /api/sentiment` (`get_sentiment_route`).
Same shape as app.py but: the mock heuristic checks only `"good"`; the
validation is `message = data.get('message'); if not message: 400`, so an
empty message is rejected and a non-dict body raises outside the try
block. -/
def app1SentimentRoute (cfg : Config) (reqBody : Json) (out : ProviderOutcome) :
    HandlerResult × Config :=
  if !cfg.keyPresent then
    -- mock path: "happy" if "good" in request.get_json().get('message','').lower() else "sad"
    match pyGet reqBody "message" (Json.str "") with
    | .error e => (crash e 0, cfg)
    | .ok v =>
      match pyLower v with
      | .error e => (crash e 0, cfg)
      | .ok m =>
        let sentiment := if strContainsSub m "good" then "happy" else "sad"
        (⟨200, Body.sentiment sentiment, 0, false⟩, cfg)
  else
    -- message = data.get('message')  (outside the try block)
    match pyGet reqBody "message" Json.null with
    | .error e => (crash e 0, cfg)
    | .ok message =>
      if pyFalsy message then
        (⟨400, Body.err "Message is required", 0, false⟩, cfg)
      else
        match out with
        | .netError =>
          (⟨500, Body.err "Failed to connect to the sentiment analysis service",
            1, false⟩, cfg)
        | .reply status j =>
          if raisesForStatus status then
            (⟨status,
              Body.err ("API request failed with status " ++ toString status),
              1, false⟩, cfg)
          else
            match geminiSentimentText j with
            | .ok s => (⟨200, Body.sentiment s, 1, false⟩, cfg)
            | .error .keyError =>
              (⟨500, Body.err "Invalid response structure from sentiment service",
                1, false⟩, cfg)
            | .error .indexError =>
              (⟨500, Body.err "Invalid response structure from sentiment service",
                1, false⟩, cfg)
            | .error e => (crash e 1, cfg)

/-- `src/app1.py`, route `POST /api/chat` (`continue_chat_route`).
Offline mode returns a static placeholder; inside the try block,
`HTTPError` carries the provider status and every other exception
(connection failures and all parsing errors alike) is caught by the
generic `except Exception` clause and becomes a 500. -/
def app1ChatRoute (cfg : Config) (reqBody : Json) (out : ProviderOutcome) :
    HandlerResult × Config :=
  if !cfg.keyPresent then
    (⟨200,
      Body.chatResponse "I\x27m in offline mode right now, but we can chat more later!",
      0, false⟩, cfg)
  else
    -- message = data.get('message')  (outside the try block)
    match pyGet reqBody "message" Json.null with
    | .error e => (crash e 0, cfg)
    | .ok message =>
      if pyFalsy message then
        (⟨400, Body.err "Message is required", 0, false⟩, cfg)
      else
        match out with
        | .netError =>
          -- RequestException is an Exception: caught by the generic clause
          (⟨500, Body.err "An unexpected error occurred.", 1, false⟩, cfg)
        | .reply status j =>
          if raisesForStatus status then
            (⟨status, Body.err "The chat service is currently unavailable.",
              1, false⟩, cfg)
          else
            match geminiChatText j with
            | .ok t => (⟨200, Body.chatResponse t, 1, false⟩, cfg)
            | .error _ =>
              (⟨500, Body.err "An unexpected error occurred.", 1, false⟩, cfg)

/-- `src/main.py` extraction:
`result.get("choices", [{}])[0].get("message", {}).get("content", "").strip().lower()`. -/
def mainExtract (j : Json) : Except PyErr String := do
  let choices ← pyGet j "choices" (Json.arr [Json.obj []])
  let c0 ← getItemIdx choices 0
  let m ← pyGet c0 "message" (Json.obj [])
  let content ← pyGet m "content" (Json.str "")
  pyStripLower content

/-- `src/main.py`, route `POST /sentiment` (`get_sentiment`).  The whole
body sits in one `try` whose `except Exception` returns
`{"error": str(e), "sentiment": "happy"}` with status 500.  There is no
offline mode (the key is only interpolated into a header) and no
`raise_for_status`: the provider's status code is never inspected.
Labels other than "happy"/"sad" are replaced by the fallback "happy". -/
def mainSentimentRoute (cfg : Config) (reqBody : Json) (out : ProviderOutcome) :
    HandlerResult × Config :=
  -- user_message = data.get("message", "")  (inside the try block)
  match pyGet reqBody "message" (Json.str "") with
  | .error e => (⟨500, Body.errSentiment (errMsg e) "happy", 0, false⟩, cfg)
  | .ok userMessage =>
    if pyFalsy userMessage then
      (⟨400, Body.err "No message provided", 0, false⟩, cfg)
    else
      match out with
      | .netError =>
        (⟨500, Body.errSentiment netErrMsg "happy", 1, false⟩, cfg)
      | .reply _ j =>
        match mainExtract j with
        | .error e => (⟨500, Body.errSentiment (errMsg e) "happy", 1, false⟩, cfg)
        | .ok s =>
          let sentiment := if s == "happy" || s == "sad" then s else "happy"
          (⟨200, Body.sentiment sentiment, 1, false⟩, cfg)

/-! ## Helper lemmas shared between claims -/

theorem appSentimentRoute_cfg (c : Config) (r : Json) (o : ProviderOutcome) :
    (appSentimentRoute c r o).2 = c := by
  unfold appSentimentRoute
  repeat' split
  all_goals rfl

theorem app1SentimentRoute_cfg (c : Config) (r : Json) (o : ProviderOutcome) :
    (app1SentimentRoute c r o).2 = c := by
  unfold app1SentimentRoute
  repeat' split
  all_goals rfl

theorem app1ChatRoute_cfg (c : Config) (r : Json) (o : ProviderOutcome) :
    (app1ChatRoute c r o).2 = c := by
  unfold app1ChatRoute
  repeat' split
  all_goals rfl

theorem mainSentimentRoute_cfg (c : Config) (r : Json) (o : ProviderOutcome) :
    (mainSentimentRoute c r o).2 = c := by
  unfold mainSentimentRoute
  repeat' split
  all_goals rfl

theorem appSentimentRoute_calls (c : Config) (r : Json) (o : ProviderOutcome) :
    (appSentimentRoute c r o).1.providerCalls ≤ 1 := by
  unfold appSentimentRoute
  repeat' split
  all_goals simp [crash]

theorem app1SentimentRoute_calls (c : Config) (r : Json) (o : ProviderOutcome) :
    (app1SentimentRoute c r o).1.providerCalls ≤ 1 := by
  unfold app1SentimentRoute
  repeat' split
  all_goals simp [crash]

theorem app1ChatRoute_calls (c : Config) (r : Json) (o : ProviderOutcome) :
    (app1ChatRoute c r o).1.providerCalls ≤ 1 := by
  unfold app1ChatRoute
  repeat' split
  all_goals simp [crash]

theorem mainSentimentRoute_calls (c : Config) (r : Json) (o : ProviderOutcome) :
    (mainSentimentRoute c r o).1.providerCalls ≤ 1 := by
  unfold mainSentimentRoute
  repeat' split
  all_goals simp

/-- Online path of app.py's sentiment route: with a key configured, a
request object carrying a `message` key and a provider reply whose status
does not trigger `raise_for_status`, the route returns whatever the
extraction chain produced, verbatim, as the label of a 200 response. -/
theorem appSentimentOnline (k m : String) (st : Nat) (j : Json) (t : String)
    (hk : ¬ k = "") (hst : raisesForStatus st = false)
    (h : geminiSentimentText j = .ok t) :
    (appSentimentRoute ⟨some k⟩ (Json.obj [("message", Json.str m)])
      (.reply st j)).1 = ⟨200, Body.sentiment t, 1, false⟩ := by
  simp [appSentimentRoute, Config.keyPresent, pyFalsy, pyContains, getItemStr,
    lookupField, hk, hst, h]

/-- Online path of app1.py's sentiment route (the message must be
non-empty to pass `if not message`). -/
theorem app1SentimentOnline (k m : String) (st : Nat) (j : Json) (t : String)
    (hk : ¬ k = "") (hm : ¬ m = "") (hst : raisesForStatus st = false)
    (h : geminiSentimentText j = .ok t) :
    (app1SentimentRoute ⟨some k⟩ (Json.obj [("message", Json.str m)])
      (.reply st j)).1 = ⟨200, Body.sentiment t, 1, false⟩ := by
  simp [app1SentimentRoute, Config.keyPresent, pyFalsy, pyGet, lookupField,
    hk, hm, hst, h]

/-- Online path of app1.py's chat route. -/
theorem app1ChatOnline (k m : String) (st : Nat) (j : Json) (t : String)
    (hk : ¬ k = "") (hm : ¬ m = "") (hst : raisesForStatus st = false)
    (h : geminiChatText j = .ok t) :
    (app1ChatRoute ⟨some k⟩ (Json.obj [("message", Json.str m)])
      (.reply st j)).1 = ⟨200, Body.chatResponse t, 1, false⟩ := by
  simp [app1ChatRoute, Config.keyPresent, pyFalsy, pyGet, lookupField,
    hk, hm, hst, h]

/-- The extraction chain on the Gemini reply shape with a string text
yields that text, stripped and lower-cased. -/
theorem geminiSentimentText_mk (t : String) :
    geminiSentimentText (mkGeminiReply (Json.str t))
      = .ok (pyLowerStr (pyStripStr t)) := rfl

/-- The chat extraction on the Gemini reply shape with a string text
yields that text, stripped only. -/
theorem geminiChatText_mk (t : String) :
    geminiChatText (mkGeminiReply (Json.str t)) = .ok (pyStripStr t) := rfl

/-- main.py's route never lets an exception escape: the whole body is in
one `try` with `except Exception`. -/
theorem mainSentimentRoute_noCrash (c : Config) (r : Json) (o : ProviderOutcome) :
    (mainSentimentRoute c r o).1.crashed = false := by
  unfold mainSentimentRoute
  repeat' split
  all_goals rfl

/-! ## Claims -/

/-- C1 counterexample: app.py has no fallback normalization.  With a key
configured and the provider replying 200 with text "neutral", the gateway
returns 200 with sentiment "neutral", which is neither "happy" nor
"sad". -/
theorem C1_counterexample :
    (appSentimentRoute ⟨some "k"⟩ (Json.obj [("message", Json.str "hi")])
      (.reply 200 (mkGeminiReply (Json.str "neutral")))).1
      = ⟨200, Body.sentiment "neutral", 1, false⟩
    ∧ ¬ ("neutral" = "happy") ∧ ¬ ("neutral" = "sad") :=
  ⟨by decide, by decide, by decide⟩

/-- C1 (amended): only main.py constrains the label: every sentiment body
main.py produces carries "happy" or "sad"; app.py and app1.py return the
trimmed lower-cased provider text verbatim as the label, whatever it is. -/
theorem C1_amended :
    (∀ (c : Config) (r : Json) (o : ProviderOutcome) (s : String),
        (mainSentimentRoute c r o).1.body = Body.sentiment s →
        s = "happy" ∨ s = "sad")
    ∧ (∀ (k m : String) (j : Json) (t : String), ¬ k = "" →
        geminiSentimentText j = .ok t →
        (appSentimentRoute ⟨some k⟩ (Json.obj [("message", Json.str m)])
          (.reply 200 j)).1 = ⟨200, Body.sentiment t, 1, false⟩)
    ∧ (∀ (k m : String) (j : Json) (t : String), ¬ k = "" → ¬ m = "" →
        geminiSentimentText j = .ok t →
        (app1SentimentRoute ⟨some k⟩ (Json.obj [("message", Json.str m)])
          (.reply 200 j)).1 = ⟨200, Body.sentiment t, 1, false⟩) := by
  refine ⟨?_, ?_, ?_⟩
  · intro c r o s h
    unfold mainSentimentRoute at h
    repeat' split at h
    all_goals simp_all
  · intro k m j t hk h
    exact appSentimentOnline k m 200 j t hk rfl h
  · intro k m j t hk hm h
    exact app1SentimentOnline k m 200 j t hk hm rfl h

/-- C1 witness: the amended claim applied at concrete inputs. -/
theorem C1_witness :
    ("happy" = "happy" ∨ "happy" = "sad")
    ∧ (appSentimentRoute ⟨some "k"⟩ (Json.obj [("message", Json.str "hi")])
        (.reply 200 (mkGeminiReply (Json.str "ok")))).1
        = ⟨200, Body.sentiment "ok", 1, false⟩
    ∧ (app1SentimentRoute ⟨some "k"⟩ (Json.obj [("message", Json.str "hi")])
        (.reply 200 (mkGeminiReply (Json.str "ok")))).1
        = ⟨200, Body.sentiment "ok", 1, false⟩ :=
  ⟨C1_amended.1 ⟨some "k"⟩ (Json.obj [("message", Json.str "hi")])
      (.reply 200 (Json.obj [("choices", Json.arr [Json.obj [("message",
        Json.obj [("content", Json.str "happy")])]])])) "happy" (by decide),
   C1_amended.2.1 "k" "hi" (mkGeminiReply (Json.str "ok")) "ok"
      (by decide) rfl,
   C1_amended.2.2 "k" "hi" (mkGeminiReply (Json.str "ok")) "ok"
      (by decide) (by decide) rfl⟩

/-- C2 counterexample: in offline mode (no key), app.py's sentiment route
answers an empty-message request with the 200 mock label, not with 400. -/
theorem C2_counterexample :
    (appSentimentRoute ⟨none⟩ (Json.obj [("message", Json.str "")])
      ProviderOutcome.netError).1
      = ⟨200, Body.sentiment "sad", 0, false⟩ := by decide

/-- C2 (amended): with a credential configured, app1.py's sentiment and
chat routes and main.py answer 400 without any provider call when the
message is missing or falsy, and app.py answers 400 when the `message` key
is missing; but app.py still makes the provider call for an empty-string
message, and in offline mode app.py answers 200 instead of 400. -/
theorem C2_amended :
    ∀ (k : String) (o : ProviderOutcome) (msg : Json),
      ¬ k = "" → pyFalsy msg = true →
      ((app1SentimentRoute ⟨some k⟩ (Json.obj [("message", msg)]) o).1
          = ⟨400, Body.err "Message is required", 0, false⟩)
      ∧ ((app1ChatRoute ⟨some k⟩ (Json.obj [("message", msg)]) o).1
          = ⟨400, Body.err "Message is required", 0, false⟩)
      ∧ ((mainSentimentRoute ⟨some k⟩ (Json.obj [("message", msg)]) o).1
          = ⟨400, Body.err "No message provided", 0, false⟩)
      ∧ ((appSentimentRoute ⟨some k⟩ (Json.obj []) o).1
          = ⟨400, Body.err "Message is required in the request body", 0, false⟩)
      ∧ ((appSentimentRoute ⟨some k⟩ (Json.obj [("message", Json.str "")]) o).1.providerCalls
          = 1)
      ∧ ((appSentimentRoute ⟨none⟩ (Json.obj []) o).1.status = 200) := by
  intro k o msg hk hmsg
  refine ⟨?_, ?_, ?_, ?_, ?_, rfl⟩
  · simp [app1SentimentRoute, Config.keyPresent, pyGet, lookupField, hk, hmsg]
  · simp [app1ChatRoute, Config.keyPresent, pyGet, lookupField, hk, hmsg]
  · simp [mainSentimentRoute, pyGet, lookupField, hmsg]
  · simp [appSentimentRoute, Config.keyPresent, pyFalsy, hk]
  · cases o with
    | netError =>
      simp [appSentimentRoute, Config.keyPresent, pyFalsy, pyContains,
        lookupField, getItemStr, hk]
    | reply st j =>
      unfold appSentimentRoute
      repeat' split
      all_goals simp_all [crash, Config.keyPresent, pyFalsy, pyContains,
        lookupField, getItemStr]

/-- C2 witness: the amended claim applied at concrete inputs. -/
theorem C2_witness :
    ((app1SentimentRoute ⟨some "k"⟩ (Json.obj [("message", Json.str "")])
        ProviderOutcome.netError).1
        = ⟨400, Body.err "Message is required", 0, false⟩)
    ∧ ((app1ChatRoute ⟨some "k"⟩ (Json.obj [("message", Json.str "")])
        ProviderOutcome.netError).1
        = ⟨400, Body.err "Message is required", 0, false⟩)
    ∧ ((mainSentimentRoute ⟨some "k"⟩ (Json.obj [("message", Json.str "")])
        ProviderOutcome.netError).1
        = ⟨400, Body.err "No message provided", 0, false⟩)
    ∧ ((appSentimentRoute ⟨some "k"⟩ (Json.obj []) ProviderOutcome.netError).1
        = ⟨400, Body.err "Message is required in the request body", 0, false⟩)
    ∧ ((appSentimentRoute ⟨some "k"⟩ (Json.obj [("message", Json.str "")])
        ProviderOutcome.netError).1.providerCalls = 1)
    ∧ ((appSentimentRoute ⟨none⟩ (Json.obj []) ProviderOutcome.netError).1.status = 200) :=
  C2_amended "k" ProviderOutcome.netError (Json.str "") (by decide) (by decide)

/-- C3 counterexample: on a connection failure, main.py's response body
carries the default label "happy" alongside the error message. -/
theorem C3_counterexample :
    (mainSentimentRoute ⟨some "k"⟩ (Json.obj [("message", Json.str "hi")])
      ProviderOutcome.netError).1
      = ⟨500, Body.errSentiment netErrMsg "happy", 1, false⟩ := by decide

/-- C3 (amended): when the provider is unreachable, app.py and app1.py
return a plain 500 error body with no sentiment label; main.py returns 500
with both an error string and the default label "happy" in the body. -/
theorem C3_amended :
    ∀ (k m : String), ¬ k = "" → ¬ m = "" →
      ((appSentimentRoute ⟨some k⟩ (Json.obj [("message", Json.str m)])
          ProviderOutcome.netError).1
        = ⟨500, Body.err "Failed to connect to the sentiment analysis service", 1, false⟩)
      ∧ ((app1SentimentRoute ⟨some k⟩ (Json.obj [("message", Json.str m)])
          ProviderOutcome.netError).1
        = ⟨500, Body.err "Failed to connect to the sentiment analysis service", 1, false⟩)
      ∧ ((app1ChatRoute ⟨some k⟩ (Json.obj [("message", Json.str m)])
          ProviderOutcome.netError).1
        = ⟨500, Body.err "An unexpected error occurred.", 1, false⟩)
      ∧ ((mainSentimentRoute ⟨some k⟩ (Json.obj [("message", Json.str m)])
          ProviderOutcome.netError).1
        = ⟨500, Body.errSentiment netErrMsg "happy", 1, false⟩) := by
  intro k m hk hm
  refine ⟨?_, ?_, ?_, ?_⟩
  · simp [appSentimentRoute, Config.keyPresent, pyFalsy, pyContains,
      lookupField, getItemStr, hk]
  · simp [app1SentimentRoute, Config.keyPresent, pyFalsy, pyGet, lookupField, hk, hm]
  · simp [app1ChatRoute, Config.keyPresent, pyFalsy, pyGet, lookupField, hk, hm]
  · simp [mainSentimentRoute, pyFalsy, pyGet, lookupField, hm]

/-- C3 witness: the amended claim applied at concrete inputs. -/
theorem C3_witness :
    ((appSentimentRoute ⟨some "k"⟩ (Json.obj [("message", Json.str "hi")])
        ProviderOutcome.netError).1
      = ⟨500, Body.err "Failed to connect to the sentiment analysis service", 1, false⟩)
    ∧ ((app1SentimentRoute ⟨some "k"⟩ (Json.obj [("message", Json.str "hi")])
        ProviderOutcome.netError).1
      = ⟨500, Body.err "Failed to connect to the sentiment analysis service", 1, false⟩)
    ∧ ((app1ChatRoute ⟨some "k"⟩ (Json.obj [("message", Json.str "hi")])
        ProviderOutcome.netError).1
      = ⟨500, Body.err "An unexpected error occurred.", 1, false⟩)
    ∧ ((mainSentimentRoute ⟨some "k"⟩ (Json.obj [("message", Json.str "hi")])
        ProviderOutcome.netError).1
      = ⟨500, Body.errSentiment netErrMsg "happy", 1, false⟩) :=
  C3_amended "k" "hi" (by decide) (by decide)

/-- C4 counterexample: main.py never inspects the provider's status code:
a 503 reply with an empty JSON object body yields a 200 success with the
fallback label instead of a 503 error response. -/
theorem C4_counterexample :
    (mainSentimentRoute ⟨some "k"⟩ (Json.obj [("message", Json.str "hi")])
      (.reply 503 (Json.obj []))).1
      = ⟨200, Body.sentiment "happy", 1, false⟩
    ∧ ¬ ((200 : Nat) = 503) :=
  ⟨by decide, by decide⟩

/-- C4 (amended): app.py and app1.py (both routes) relay the provider's
status code with an error body when that status is in 400..599 (the range
`raise_for_status` raises on); main.py ignores the provider status
entirely: its result is the same for every status. -/
theorem C4_amended :
    ∀ (k m : String) (st : Nat) (j : Json), ¬ k = "" → ¬ m = "" →
      400 ≤ st → st < 600 →
      ((appSentimentRoute ⟨some k⟩ (Json.obj [("message", Json.str m)])
          (.reply st j)).1
        = ⟨st, Body.err ("API request failed with status " ++ toString st), 1, false⟩)
      ∧ ((app1SentimentRoute ⟨some k⟩ (Json.obj [("message", Json.str m)])
          (.reply st j)).1
        = ⟨st, Body.err ("API request failed with status " ++ toString st), 1, false⟩)
      ∧ ((app1ChatRoute ⟨some k⟩ (Json.obj [("message", Json.str m)])
          (.reply st j)).1
        = ⟨st, Body.err "The chat service is currently unavailable.", 1, false⟩)
      ∧ (∀ (c : Config) (r : Json) (st2 : Nat),
          (mainSentimentRoute c r (.reply st j)).1
            = (mainSentimentRoute c r (.reply st2 j)).1) := by
  intro k m st j hk hm h4 h6
  have hst : raisesForStatus st = true := by
    unfold raisesForStatus
    simp only [Bool.and_eq_true, decide_eq_true_eq]
    omega
  refine ⟨?_, ?_, ?_, ?_⟩
  · simp [appSentimentRoute, Config.keyPresent, pyFalsy, pyContains,
      lookupField, getItemStr, hk, hst]
  · simp [app1SentimentRoute, Config.keyPresent, pyFalsy, pyGet,
      lookupField, hk, hm, hst]
  · simp [app1ChatRoute, Config.keyPresent, pyFalsy, pyGet,
      lookupField, hk, hm, hst]
  · intro c r st2
    unfold mainSentimentRoute
    rcases hpg : pyGet r "message" (Json.str "") with e | v <;> simp [hpg]

/-- C4 witness: the amended claim applied at concrete inputs. -/
theorem C4_witness :
    ((appSentimentRoute ⟨some "k"⟩ (Json.obj [("message", Json.str "hi")])
        (.reply 429 (Json.obj []))).1
      = ⟨429, Body.err ("API request failed with status " ++ toString 429), 1, false⟩)
    ∧ ((app1SentimentRoute ⟨some "k"⟩ (Json.obj [("message", Json.str "hi")])
        (.reply 429 (Json.obj []))).1
      = ⟨429, Body.err ("API request failed with status " ++ toString 429), 1, false⟩)
    ∧ ((app1ChatRoute ⟨some "k"⟩ (Json.obj [("message", Json.str "hi")])
        (.reply 429 (Json.obj []))).1
      = ⟨429, Body.err "The chat service is currently unavailable.", 1, false⟩)
    ∧ (∀ (c : Config) (r : Json) (st2 : Nat),
        (mainSentimentRoute c r (.reply 429 (Json.obj []))).1
          = (mainSentimentRoute c r (.reply st2 (Json.obj []))).1) :=
  C4_amended "k" "hi" 429 (Json.obj []) (by decide) (by decide)
    (by decide) (by decide)

/-- C5 counterexample: app1.py's offline heuristic checks only the keyword
"good", so `classify("this is great")` returns "sad" in offline mode, not
"happy". -/
theorem C5_counterexample :
    (app1SentimentRoute ⟨none⟩ (Json.obj [("message", Json.str "this is great")])
      ProviderOutcome.netError).1
      = ⟨200, Body.sentiment "sad", 0, false⟩ := by decide

/-- C5 (amended): in offline mode, without any outbound call, app.py
classifies "this is great" as "happy" and "this is bad" as "sad"; app1.py
classifies both "this is great" and "this is bad" as "sad" (its heuristic
looks only for "good"). -/
theorem C5_amended :
    ∀ o : ProviderOutcome,
      ((appSentimentRoute ⟨none⟩
          (Json.obj [("message", Json.str "this is great")]) o).1
        = ⟨200, Body.sentiment "happy", 0, false⟩)
      ∧ ((appSentimentRoute ⟨none⟩
          (Json.obj [("message", Json.str "this is bad")]) o).1
        = ⟨200, Body.sentiment "sad", 0, false⟩)
      ∧ ((app1SentimentRoute ⟨none⟩
          (Json.obj [("message", Json.str "this is great")]) o).1
        = ⟨200, Body.sentiment "sad", 0, false⟩)
      ∧ ((app1SentimentRoute ⟨none⟩
          (Json.obj [("message", Json.str "this is bad")]) o).1
        = ⟨200, Body.sentiment "sad", 0, false⟩) :=
  fun _ => ⟨rfl, rfl, rfl, rfl⟩

/-- C6: round-trip.  For any configured key and any non-empty message, a
200 provider reply with body
`{"candidates":[{"content":{"parts":[{"text":"Happy"}]}}]}` makes app.py
and app1.py answer 200 with `{"sentiment":"happy"}` (trimmed and
case-folded). -/
theorem C6_roundtrip :
    ∀ (k m : String), ¬ k = "" → ¬ m = "" →
      ((appSentimentRoute ⟨some k⟩ (Json.obj [("message", Json.str m)])
          (.reply 200 (mkGeminiReply (Json.str "Happy")))).1
        = ⟨200, Body.sentiment "happy", 1, false⟩)
      ∧ ((app1SentimentRoute ⟨some k⟩ (Json.obj [("message", Json.str m)])
          (.reply 200 (mkGeminiReply (Json.str "Happy")))).1
        = ⟨200, Body.sentiment "happy", 1, false⟩) := by
  intro k m hk hm
  exact ⟨appSentimentOnline k m 200 (mkGeminiReply (Json.str "Happy")) "happy"
      hk rfl rfl,
    app1SentimentOnline k m 200 (mkGeminiReply (Json.str "Happy")) "happy"
      hk hm rfl rfl⟩

/-- C6 witness: the round-trip applied at a concrete key and message. -/
theorem C6_witness :
    ((appSentimentRoute ⟨some "k"⟩ (Json.obj [("message", Json.str "hello")])
        (.reply 200 (mkGeminiReply (Json.str "Happy")))).1
      = ⟨200, Body.sentiment "happy", 1, false⟩)
    ∧ ((app1SentimentRoute ⟨some "k"⟩ (Json.obj [("message", Json.str "hello")])
        (.reply 200 (mkGeminiReply (Json.str "Happy")))).1
      = ⟨200, Body.sentiment "happy", 1, false⟩) :=
  C6_roundtrip "k" "hello" (by decide) (by decide)

/-- C7 counterexample: a provider reply whose JSON is a top-level array
raises `TypeError` in app.py, which the `except (KeyError, IndexError)`
clause does not catch: the exception escapes the handler. -/
theorem C7_counterexample :
    (appSentimentRoute ⟨some "k"⟩ (Json.obj [("message", Json.str "hi")])
      (.reply 200 (Json.arr []))).1
      = ⟨500, Body.unhandled PyErr.typeError, 1, true⟩
    ∧ (appSentimentRoute ⟨some "k"⟩ (Json.obj [("message", Json.str "hi")])
        (.reply 200 (Json.arr []))).1.crashed = true :=
  ⟨by decide, by decide⟩

/-- C7 (amended): missing keys or indexes in the provider reply
(`KeyError`/`IndexError`) degrade to a 500 error response in app.py and
app1.py's sentiment routes, app1.py's chat route catches every extraction
failure, and main.py never lets any exception escape; but an ill-typed
reply (`TypeError`/`AttributeError`, e.g. a non-object reply or a
non-string text) escapes app.py's and app1.py's sentiment handlers as an
unhandled exception. -/
theorem C7_amended :
    (∀ (k m : String) (j : Json), ¬ k = "" → ¬ m = "" →
        (geminiSentimentText j = .error .keyError
          ∨ geminiSentimentText j = .error .indexError) →
        ((appSentimentRoute ⟨some k⟩ (Json.obj [("message", Json.str m)])
            (.reply 200 j)).1
          = ⟨500, Body.err "Invalid response structure from sentiment service", 1, false⟩)
        ∧ ((app1SentimentRoute ⟨some k⟩ (Json.obj [("message", Json.str m)])
            (.reply 200 j)).1
          = ⟨500, Body.err "Invalid response structure from sentiment service", 1, false⟩))
    ∧ (∀ (k m : String) (j : Json) (e : PyErr), ¬ k = "" → ¬ m = "" →
        geminiChatText j = .error e →
        (app1ChatRoute ⟨some k⟩ (Json.obj [("message", Json.str m)])
          (.reply 200 j)).1
          = ⟨500, Body.err "An unexpected error occurred.", 1, false⟩)
    ∧ (∀ (c : Config) (r : Json) (o : ProviderOutcome),
        (mainSentimentRoute c r o).1.crashed = false) := by
  refine ⟨?_, ?_, fun c r o => mainSentimentRoute_noCrash c r o⟩
  · intro k m j hk hm h
    rcases h with h | h <;>
      exact ⟨by simp [appSentimentRoute, Config.keyPresent, pyFalsy, pyContains,
          lookupField, getItemStr, raisesForStatus, hk, h],
        by simp [app1SentimentRoute, Config.keyPresent, pyFalsy, pyGet,
          lookupField, raisesForStatus, hk, hm, h]⟩
  · intro k m j e hk hm h
    simp [app1ChatRoute, Config.keyPresent, pyFalsy, pyGet, lookupField,
      raisesForStatus, hk, hm, h]

/-- C7 witness: the amended claim applied at concrete inputs (an empty
object reply fails the chain with `KeyError`). -/
theorem C7_witness :
    (((appSentimentRoute ⟨some "k"⟩ (Json.obj [("message", Json.str "hi")])
        (.reply 200 (Json.obj []))).1
      = ⟨500, Body.err "Invalid response structure from sentiment service", 1, false⟩)
    ∧ ((app1SentimentRoute ⟨some "k"⟩ (Json.obj [("message", Json.str "hi")])
        (.reply 200 (Json.obj []))).1
      = ⟨500, Body.err "Invalid response structure from sentiment service", 1, false⟩))
    ∧ ((app1ChatRoute ⟨some "k"⟩ (Json.obj [("message", Json.str "hi")])
        (.reply 200 (Json.obj []))).1
      = ⟨500, Body.err "An unexpected error occurred.", 1, false⟩)
    ∧ ((mainSentimentRoute ⟨some "k"⟩ (Json.obj [("message", Json.str "hi")])
        (.reply 200 (Json.obj []))).1.crashed = false) :=
  ⟨C7_amended.1 "k" "hi" (Json.obj []) (by decide) (by decide) (Or.inl rfl),
   C7_amended.2.1 "k" "hi" (Json.obj []) PyErr.keyError (by decide) (by decide) rfl,
   C7_amended.2.2 ⟨some "k"⟩ (Json.obj [("message", Json.str "hi")])
     (.reply 200 (Json.obj []))⟩

/-- C8 counterexample: a provider text that trims to the empty string
makes the chat route answer 200 with an empty `response` field, so a
successful `chat` call can return an empty string. -/
theorem C8_counterexample :
    (app1ChatRoute ⟨some "k"⟩ (Json.obj [("message", Json.str "hello")])
      (.reply 200 (mkGeminiReply (Json.str "   ")))).1
      = ⟨200, Body.chatResponse "", 1, false⟩ := by decide

/-- C8 (amended): on a successful chat request the `response` field equals
the provider's text with surrounding whitespace stripped and no other
transformation; in particular it is non-empty exactly when the stripped
provider text is. -/
theorem C8_amended :
    ∀ (k m t : String), ¬ k = "" → ¬ m = "" →
      (app1ChatRoute ⟨some k⟩ (Json.obj [("message", Json.str m)])
        (.reply 200 (mkGeminiReply (Json.str t)))).1
        = ⟨200, Body.chatResponse (pyStripStr t), 1, false⟩ := by
  intro k m t hk hm
  exact app1ChatOnline k m 200 (mkGeminiReply (Json.str t)) (pyStripStr t)
    hk hm rfl (geminiChatText_mk t)

/-- C8 witness: the amended claim applied at a concrete input. -/
theorem C8_witness :
    (app1ChatRoute ⟨some "k"⟩ (Json.obj [("message", Json.str "hello")])
      (.reply 200 (mkGeminiReply (Json.str " Hi there! ")))).1
      = ⟨200, Body.chatResponse (pyStripStr " Hi there! "), 1, false⟩ :=
  C8_amended "k" "hello" " Hi there! " (by decide) (by decide)

/-- C9: frame property.  Every handler leaves the module-level
configuration exactly as it found it, and makes at most one outbound
provider call per request. -/
theorem C9_frame :
    ∀ (c : Config) (r : Json) (o : ProviderOutcome),
      (appSentimentRoute c r o).2 = c
      ∧ (app1SentimentRoute c r o).2 = c
      ∧ (app1ChatRoute c r o).2 = c
      ∧ (mainSentimentRoute c r o).2 = c
      ∧ (appSentimentRoute c r o).1.providerCalls ≤ 1
      ∧ (app1SentimentRoute c r o).1.providerCalls ≤ 1
      ∧ (app1ChatRoute c r o).1.providerCalls ≤ 1
      ∧ (mainSentimentRoute c r o).1.providerCalls ≤ 1 :=
  fun c r o =>
    ⟨appSentimentRoute_cfg c r o, app1SentimentRoute_cfg c r o,
     app1ChatRoute_cfg c r o, mainSentimentRoute_cfg c r o,
     appSentimentRoute_calls c r o, app1SentimentRoute_calls c r o,
     app1ChatRoute_calls c r o, mainSentimentRoute_calls c r o⟩

/-- C10 counterexample: the claim quantifies over every JSON object body,
but on `{"choices": []}` the subscript `[0]` raises `IndexError`, the
outer `except Exception` fires, and main.py answers 500 (with the error
text and the label), not 200 `{"sentiment": "happy"}`. -/
theorem C10_counterexample :
    (mainSentimentRoute ⟨some "k"⟩ (Json.obj [("message", Json.str "hi")])
      (.reply 200 (Json.obj [("choices", Json.arr [])]))).1
      = ⟨500, Body.errSentiment (errMsg PyErr.indexError) "happy", 1, false⟩
    ∧ ¬ ((500 : Nat) = 200) :=
  ⟨by decide, by decide⟩

/-- C10 (amended): for every provider reply (any status) whose body lets
the chained defaulted lookups succeed with a text that does not normalize
to "happy" or "sad", main.py answers 200 with the fallback label
"happy"; bodies on which a lookup raises (such as `{"choices": []}`)
instead produce the 500 error-with-label response. -/
theorem C10_amended :
    ∀ (c : Config) (m : String) (st : Nat) (j : Json) (s : String),
      ¬ m = "" → mainExtract j = .ok s → ¬ s = "happy" → ¬ s = "sad" →
      (mainSentimentRoute c (Json.obj [("message", Json.str m)])
        (.reply st j)).1
        = ⟨200, Body.sentiment "happy", 1, false⟩ := by
  intro c m st j s hm h h1 h2
  simp [mainSentimentRoute, pyGet, lookupField, pyFalsy, hm, h, h1, h2]

/-- C10 witness: the amended claim applied at a concrete input (an empty
object body defaults every level and extracts the empty string). -/
theorem C10_witness :
    (mainSentimentRoute ⟨some "k"⟩ (Json.obj [("message", Json.str "hi")])
      (.reply 200 (Json.obj []))).1
      = ⟨200, Body.sentiment "happy", 1, false⟩ :=
  C10_amended ⟨some "k"⟩ "hi" 200 (Json.obj []) "" (by decide) rfl
    (by decide) (by decide)

end MoodMorph
